import Mathlib

set_option maxRecDepth 8000

/-!
Shallow embedding of the rslox front end (lexer, token model, Pratt-operator
binding powers, span-tracked value model and tree-walking evaluator).

Modelling conventions:
* machine floats (`f64`) are modelled as exact rationals `ℚ`; the number
  payloads of all claims and tests are small decimal literals, for which the
  rational model coincides with the code paths exercised;
* Rust `usize` arithmetic on spans/offsets is modelled as `Nat` (Rust's
  saturating-free `-` on `usize` only occurs where the code guarantees no
  underflow, matching `Nat` truncated subtraction there);
* Rust panics (`todo!`, `unimplemented!`, `.unwrap()` failures) are modelled
  as `none` of an `Option`-wrapped result;
* source text is modelled as `List Char`; every character of the inputs the
  claims mention is ASCII, so one char = one byte (`len_utf8 = 1`).
-/

/-- Source span as used by the code (miette's SourceSpan): byte offset and
length into the source buffer. -/
structure Span where
  offset : Nat
  length : Nat
deriving DecidableEq, Repr

/-- End offset of a span: `offset + len`, as computed inline by `merge_span`. -/
def Span.endPos (s : Span) : Nat := s.offset + s.length

/-- merge_span from src/token/tree.rs lines 157-164: smallest span covering
both arguments. -/
def merge_span (s1 s2 : Span) : Span :=
  let start := Nat.min s1.offset s2.offset
  let s1_end := s1.offset + s1.length
  let s2_end := s2.offset + s2.length
  ⟨start, Nat.max s1_end s2_end - start⟩

/-- Model of `std::borrow::Cow<'a, str>`: a borrowed view or an owned buffer;
comparisons in the code always go through the dereferenced content. -/
inductive RCow where
  | borrowed (s : List Char)
  | owned (s : List Char)
deriving DecidableEq, Repr

/-- The text a Cow dereferences to. -/
def RCow.content : RCow → List Char
  | .borrowed s => s
  | .owned s => s

/-- AtomKind from src/token/tree.rs lines 146-155. -/
inductive AtomKind where
  | String (s : RCow)
  | Number (n : ℚ)
  | Nil
  | Bool (b : Bool)
  | Ident (s : List Char)
  | Super
  | This
deriving DecidableEq, Repr

/-- Atom from src/token/tree.rs lines 126-144: a runtime value with its span. -/
structure Atom where
  kind : AtomKind
  span : Span
deriving DecidableEq, Repr

/-- RuntimeErrorKind from src/error.rs lines 134-138. -/
inductive RuntimeErrorKind where
  | DivisionByZero
  | InvalidOperand (msg : String)
deriving DecidableEq, Repr

/-- `impl std::ops::Add for Atom` (src/token/tree.rs lines 166-184). -/
def Atom.add (a b : Atom) : Except RuntimeErrorKind Atom :=
  match a.kind, b.kind with
  | .String s1, .String s2 =>
      .ok ⟨.String (.owned (s1.content ++ s2.content)), merge_span a.span b.span⟩
  | .Number n1, .Number n2 =>
      .ok ⟨.Number (n1 + n2), merge_span a.span b.span⟩
  | _, _ => .error (.InvalidOperand "Operands must be two numbers or two strings.")

/-- `impl std::ops::Sub for Atom` (src/token/tree.rs lines 186-200). -/
def Atom.sub (a b : Atom) : Except RuntimeErrorKind Atom :=
  match a.kind, b.kind with
  | .Number n1, .Number n2 =>
      .ok ⟨.Number (n1 - n2), merge_span a.span b.span⟩
  | _, _ => .error (.InvalidOperand "Operands must be numbers")

/-- `impl std::ops::Mul for Atom` (src/token/tree.rs lines 202-216). -/
def Atom.mul (a b : Atom) : Except RuntimeErrorKind Atom :=
  match a.kind, b.kind with
  | .Number n1, .Number n2 =>
      .ok ⟨.Number (n1 * n2), merge_span a.span b.span⟩
  | _, _ => .error (.InvalidOperand "Operands must be numbers")

/-- `impl std::ops::Div for Atom` (src/token/tree.rs lines 218-238): division
by a zero divisor is a distinct DivisionByZero error. -/
def Atom.div (a b : Atom) : Except RuntimeErrorKind Atom :=
  match a.kind, b.kind with
  | .Number n1, .Number n2 =>
      if n2 = 0 then
        .error .DivisionByZero
      else
        .ok ⟨.Number (n1 / n2), merge_span a.span b.span⟩
  | _, _ => .error (.InvalidOperand "Operands must be numbers")

/-- `impl std::ops::Neg for Atom` (src/token/tree.rs lines 240-251). -/
def Atom.neg (a : Atom) : Except RuntimeErrorKind Atom :=
  match a.kind with
  | .Number n => .ok ⟨.Number (-n), a.span⟩
  | _ => .error (.InvalidOperand "Operand must be a number.")

/-- `impl std::ops::Not for Atom` (src/token/tree.rs lines 253-262): boolean
negation on Bool, Nil on every other kind; the operand's span is kept. -/
def Atom.not (a : Atom) : Atom :=
  match a.kind with
  | .Bool b => ⟨.Bool (!b), a.span⟩
  | _ => ⟨.Nil, a.span⟩

/-- `impl PartialEq for Atom` (src/token/tree.rs lines 264-275): equality only
within matching kinds, everything else is `false`. -/
def Atom.beq (a b : Atom) : Bool :=
  match a.kind, b.kind with
  | .String s1, .String s2 => s1.content == s2.content
  | .Number n1, .Number n2 => n1 == n2
  | .Nil, .Nil => true
  | .Bool b1, .Bool b2 => b1 == b2
  | .Ident i1, .Ident i2 => i1 == i2
  | _, _ => false

/-- Rust's `PartialEq::ne` default: negation of `eq`. -/
def Atom.bne (a b : Atom) : Bool := !(a.beq b)

/-- Three-way comparison of rationals, modelling `f64::partial_cmp` on the
(NaN-free) rational carrier. -/
def ratCmp (a b : ℚ) : Ordering :=
  if a < b then .lt else if a = b then .eq else .gt

/-- Byte-wise lexicographic comparison of text, modelling `str::partial_cmp`
(for the ASCII text of this development byte order and char order agree). -/
def lexCmp : List Char → List Char → Ordering
  | [], [] => .eq
  | [], _ :: _ => .lt
  | _ :: _, [] => .gt
  | a :: as, b :: bs => if a < b then .lt else if b < a then .gt else lexCmp as bs

/-- `impl PartialOrd for Atom` (src/token/tree.rs lines 277-285): ordering is
defined only for Number-Number and String-String pairs. -/
def Atom.partialCmp (a b : Atom) : Option Ordering :=
  match a.kind, b.kind with
  | .Number n1, .Number n2 => some (ratCmp n1 n2)
  | .String s1, .String s2 => some (lexCmp s1.content s2.content)
  | _, _ => none

/-- Rust's `PartialOrd::lt` default over `partial_cmp`. -/
def Atom.ltb (a b : Atom) : Bool := a.partialCmp b == some .lt

/-- Rust's `PartialOrd::le` default over `partial_cmp`. -/
def Atom.leb (a b : Atom) : Bool :=
  match a.partialCmp b with
  | some .lt => true
  | some .eq => true
  | _ => false

/-- Rust's `PartialOrd::gt` default over `partial_cmp`. -/
def Atom.gtb (a b : Atom) : Bool := a.partialCmp b == some .gt

/-- Rust's `PartialOrd::ge` default over `partial_cmp`. -/
def Atom.geb (a b : Atom) : Bool :=
  match a.partialCmp b with
  | some .gt => true
  | some .eq => true
  | _ => false

/-- Op from src/token/tree.rs lines 307-337 (parsed/resolved operator). -/
inductive Op where
  | Call
  | Dot
  | Group
  | Class
  | And
  | Or
  | Var
  | Print
  | While
  | For
  | If
  | Return
  | Plus
  | Minus
  | Star
  | Slash
  | Bang
  | BangEqual
  | Less
  | LessEqual
  | Equal
  | EqualEqual
  | Greater
  | GreaterEqual
deriving DecidableEq, Repr, Fintype

/-- Op::prefix_binding_power (src/token/tree.rs lines 370-377). -/
def Op.prefixBindingPower : Op → Option (Unit × Nat)
  | .Print | .Return => some ((), 1)
  | .Bang | .Plus | .Minus => some ((), 11)
  | _ => none

/-- Op::postfix_binding_power (src/token/tree.rs lines 379-386). -/
def Op.postfixBindingPower : Op → Option (Nat × Unit)
  | .Bang => some (11, ())
  | _ => none

/-- Op::infix_binding_power (src/token/tree.rs lines 388-405). -/
def Op.infixBindingPower : Op → Option (Nat × Nat)
  | .Equal => some (2, 1)
  | .BangEqual | .EqualEqual | .Less | .LessEqual | .Greater | .GreaterEqual => some (5, 6)
  | .Plus | .Minus => some (7, 8)
  | .Star | .Slash => some (9, 10)
  | .Dot => some (14, 13)
  | _ => none

/-- UnaryOperator from src/token/operator.rs lines 3-17 (includes the source's
`Selmicolon` spelling). -/
inductive UnaryOperator where
  | LeftParen
  | RightParen
  | LeftBrace
  | RightBrace
  | Comma
  | Dot
  | Selmicolon
  | Plus
  | Minus
  | Star
  | Slash
  | Bang
deriving DecidableEq, Repr

/-- BinaryOperator from src/token/operator.rs lines 38-47. -/
inductive BinaryOperator where
  | BangEqual
  | Less
  | LessEqual
  | Equal
  | EqualEqual
  | Greater
  | GreaterEqual
deriving DecidableEq, Repr

/-- Operator from src/token/operator.rs lines 63-67. -/
inductive Operator where
  | Unary (op : UnaryOperator)
  | Binary (op : BinaryOperator)
deriving DecidableEq, Repr

/-- `TryFrom<&str> for Operator` (src/token/operator.rs lines 85-113); the
error payload (a message string) plays no role in classification, so the
failure case is modelled as `none`. -/
def Operator.tryFrom? (s : List Char) : Option Operator :=
  match s with
  | ['('] => some (.Unary .LeftParen)
  | [')'] => some (.Unary .RightParen)
  | ['{'] => some (.Unary .LeftBrace)
  | ['}'] => some (.Unary .RightBrace)
  | [','] => some (.Unary .Comma)
  | ['.'] => some (.Unary .Dot)
  | [';'] => some (.Unary .Selmicolon)
  | ['+'] => some (.Unary .Plus)
  | ['-'] => some (.Unary .Minus)
  | ['*'] => some (.Unary .Star)
  | ['/'] => some (.Unary .Slash)
  | ['!'] => some (.Unary .Bang)
  | ['!', '='] => some (.Binary .BangEqual)
  | ['<'] => some (.Binary .Less)
  | ['<', '='] => some (.Binary .LessEqual)
  | ['='] => some (.Binary .Equal)
  | ['=', '='] => some (.Binary .EqualEqual)
  | ['>'] => some (.Binary .Greater)
  | ['>', '='] => some (.Binary .GreaterEqual)
  | _ => none

/-- Keyword from src/token/token.rs lines 52-77. -/
inductive Keyword where
  | And
  | Or
  | If
  | Else
  | True
  | False
  | For
  | While
  | Class
  | Fun
  | Var
  | Print
  | Return
  | Super
  | This
  | Nil
deriving DecidableEq, Repr

/-- `TryFrom<&str> for Keyword` (src/token/token.rs lines 102-128); the
InvalidKeyword error payload plays no role in classification, so failure is
modelled as `none`. -/
def Keyword.tryFrom? (s : List Char) : Option Keyword :=
  match s with
  | ['a', 'n', 'd'] => some .And
  | ['c', 'l', 'a', 's', 's'] => some .Class
  | ['e', 'l', 's', 'e'] => some .Else
  | ['f', 'a', 'l', 's', 'e'] => some .False
  | ['f', 'u', 'n'] => some .Fun
  | ['f', 'o', 'r'] => some .For
  | ['i', 'f'] => some .If
  | ['n', 'i', 'l'] => some .Nil
  | ['o', 'r'] => some .Or
  | ['p', 'r', 'i', 'n', 't'] => some .Print
  | ['r', 'e', 't', 'u', 'r', 'n'] => some .Return
  | ['s', 'u', 'p', 'e', 'r'] => some .Super
  | ['t', 'h', 'i', 's'] => some .This
  | ['t', 'r', 'u', 'e'] => some .True
  | ['v', 'a', 'r'] => some .Var
  | ['w', 'h', 'i', 'l', 'e'] => some .While
  | _ => none

/-- Literal from src/token/token.rs lines 7-12. -/
inductive Literal where
  | Identifier
  | String
  | Number (n : ℚ)
deriving DecidableEq, Repr

/-- LexingErrorKind from src/error.rs lines 104-115 (cases without TokenType
payloads; the UnexpectedToken case never arises in the embedded paths). -/
inductive LexingErrorKind where
  | InvalidOperator (s : String)
  | InvalidLiteral (s : String)
  | InvalidKeyword (s : String)
  | UnterminatedString
  | UnexpectedCharacter (c : Char)
deriving DecidableEq, Repr

/-- Digits of a decimal string folded to a natural, as Rust's float parser
does for each side of the dot. -/
def natOfDigits (l : List Char) : Nat :=
  l.foldl (fun a c => 10 * a + (c.toNat - 48)) 0

/-- Model of Rust's `str::parse::<f64>` restricted to strings of ASCII digits
and dots — the only strings the code feeds it (the call in Literal::try_from
is guarded by an all-digits-or-dots check). Such a string is valid f64 syntax
iff it has at most one dot and at least one digit; the value is modelled as
the exact decimal rational, built with mkRat so that it reduces in the
kernel. -/
def parseF64? (s : List Char) : Option ℚ :=
  if s.count '.' ≤ 1 ∧ 1 ≤ (s.filter Char.isDigit).length
      ∧ s.all (fun c => c.isDigit || c == '.') then
    let intPart := s.takeWhile (fun c => !(c == '.'))
    let fracPart := (s.dropWhile (fun c => !(c == '.'))).drop 1
    some (mkRat (natOfDigits (intPart ++ fracPart)) (10 ^ fracPart.length))
  else
    none

/-- `TryFrom<&str> for Literal` (src/token/token.rs lines 14-40). The branch
for all-digits-or-dots lexemes calls `value.parse::<f64>().unwrap()`; a parse
failure there is a panic, modelled as `none` of the outer Option. -/
def Literal.tryFrom? (s : List Char) : Option (Except LexingErrorKind Literal) :=
  if s.head? = some '"' then
    if s.getLast? = some '"' then some (.ok .String)
    else some (.error .UnterminatedString)
  else if s.all (fun c => c.isDigit || c == '.') then
    match parseF64? s with
    | some q => some (.ok (.Number q))
    | none => none
  else
    let startsWithNumber := match s.head? with
      | some c => c.isDigit
      | none => Bool.false
    if !startsWithNumber && s.all (fun c => c.isAlphanum || c == '_') then
      some (.ok .Identifier)
    else
      some (.error (.InvalidLiteral (String.mk s)))

/-- TokenType from src/token/token.rs lines 130-136. -/
inductive TokenType where
  | Keyword (kw : Keyword)
  | Literal (lit : Literal)
  | Operator (op : Operator)
  | Invalid
deriving DecidableEq, Repr

/-- `From<&str> for TokenType` (src/token/token.rs lines 149-161): try
operator, then keyword, then literal, else Invalid. A panic inside
Literal::try_from propagates, modelled as `none`. -/
def TokenType.from? (s : List Char) : Option TokenType :=
  match Operator.tryFrom? s with
  | some op => some (.Operator op)
  | none =>
    match Keyword.tryFrom? s with
    | some kw => some (.Keyword kw)
    | none =>
      match Literal.tryFrom? s with
      | some (.ok lit) => some (.Literal lit)
      | some (.error _) => some .Invalid
      | none => none

/-- Token from src/token/token.rs lines 163-167. -/
structure Token where
  ty : TokenType
  lexeme : List Char
deriving DecidableEq, Repr

/-- Per-token error of the lexer in src/lexer.rs: a kind plus the 1-based-ish
line computed by `Lexer::line` at the moment of the error. -/
inductive LexerErrorKind where
  | UnterminatedString
  | UnexpectedCharacter (c : Char)
deriving DecidableEq, Repr

/-- `Error::LexingError { ty, line }` as produced in src/lexer.rs. -/
structure LexerError where
  ty : LexerErrorKind
  line : Nat
deriving DecidableEq, Repr

/-- Lexer state from src/lexer.rs lines 6-10: the source text plus the byte
offset of the scan cursor. -/
structure Lexer where
  source_code : List Char
  byte_offset : Nat
deriving DecidableEq, Repr

/-- Model of Rust's `str::split('\n')`: the list of newline-separated
segments (always one more segment than there are newlines). -/
def linesSplit : List Char → List (List Char)
  | [] => [[]]
  | c :: rest =>
    if c = '\n' then [] :: linesSplit rest
    else
      match linesSplit rest with
      | [] => [[c]]
      | seg :: segs => (c :: seg) :: segs

/-- Model of Rust's `str::lines()`: split on newline, except that a trailing
newline does not produce a final empty line and the empty string has no
lines. (The per-line carriage-return trimming does not affect the count.) -/
def rustLines (s : List Char) : List (List Char) :=
  if s = [] then []
  else if s.getLast? = some '\n' then (linesSplit s).dropLast
  else linesSplit s

/-- Lexer::line (src/lexer.rs lines 20-22):
`self.source_code[..self.byte_offset].lines().count()`. -/
def Lexer.line (l : Lexer) : Nat :=
  (rustLines (l.source_code.take l.byte_offset)).length

/-- Single-character punctuation accepted immediately (src/lexer.rs
lines 36-41). -/
def isPunct (c : Char) : Bool :=
  c == '(' || c == ')' || c == '{' || c == '}' || c == ',' || c == '.' ||
  c == ';' || c == '+' || c == '-' || c == '*'

/-- Number of bytes the digit branch of Lexer::next consumes out of a maximal
digit-or-dot run (src/lexer.rs lines 91-104): the run is split at dots as by
`splitn(3, '.')`; with one trailing dot only the leading digits are consumed,
with two or more dots the first segment, the first dot and the second segment
are consumed, otherwise the whole run is. -/
def digitConsumeLen (run : List Char) : Nat :=
  let one := run.takeWhile (fun c => !(c == '.'))
  let rest := run.dropWhile (fun c => !(c == '.'))
  match rest with
  | [] => run.length
  | _ :: rest1 =>
    let two := rest1.takeWhile (fun c => !(c == '.'))
    let rest2 := rest1.dropWhile (fun c => !(c == '.'))
    match rest2 with
    | [] => if two = [] then one.length else run.length
    | _ :: _ => one.length + two.length + 1

/-- Shared tail of every token-emitting arm of Lexer::next (src/lexer.rs
lines 114-116): slice the lexeme, classify it, build the token. `none` is a
panic escaping TokenType::from. -/
def emitTok (src : List Char) (cur newOff : Nat) :
    Option (Option (Except LexerError Token) × Nat) :=
  let lexeme := (src.drop cur).take (newOff - cur)
  match TokenType.from? lexeme with
  | some ty => some (some (.ok ⟨ty, lexeme⟩), newOff)
  | none => none

/-- One call of `Lexer::next` (src/lexer.rs lines 33-119) starting at byte
offset `off` of `src`. The fuel argument bounds the whitespace/comment
skipping loop; `src.length + 1` always suffices since every loop iteration
advances the offset. Result: `none` models a panic; `some (none, off')` is an
exhausted iterator; `some (some r, off')` is a produced `Result` plus the new
cursor. -/
def lexNextAux (src : List Char) : Nat → Nat → Option (Option (Except LexerError Token) × Nat)
  | 0, off => some (none, off)
  | fuel + 1, off =>
    match src.drop off with
    | [] => some (none, off)
    | c :: rest =>
      let cur := off
      let off1 := off + 1
      if c.isWhitespace then
        lexNextAux src fuel off1
      else if isPunct c then
        emitTok src cur off1
      else if c == '!' || c == '=' || c == '<' || c == '>' then
        emitTok src cur (if rest.head? = some '=' then off1 + 1 else off1)
      else if c == '/' then
        if rest.head? = some '/' then
          match rest.findIdx? (fun ch => ch == '\n') with
          | some pos => lexNextAux src fuel (off1 + pos + 1)
          | none => some (none, off1)
        else
          emitTok src cur off1
      else if c.isAlpha || c == '_' then
        emitTok src cur (off1 + (rest.takeWhile (fun ch => ch.isAlphanum || ch == '_')).length)
      else if c == '"' then
        match rest.findIdx? (fun ch => ch == '"') with
        | some endIdx => emitTok src cur (off1 + endIdx + 1)
        | none =>
          some (some (.error ⟨.UnterminatedString, Lexer.line ⟨src, src.length⟩⟩), src.length)
      else if c.isDigit then
        emitTok src cur (cur + digitConsumeLen (c :: rest.takeWhile (fun ch => ch.isDigit || ch == '.')))
      else
        some (some (.error ⟨.UnexpectedCharacter c, Lexer.line ⟨src, off1⟩⟩), off1)

/-- `Lexer::next` at a given state, with enough fuel for any input. -/
def lexNext (src : List Char) (off : Nat) :
    Option (Option (Except LexerError Token) × Nat) :=
  lexNextAux src (src.length + 1) off

/-- Pull tokens (and per-token errors) from the lexer until it is exhausted
or panics, as the lexer unit tests do. -/
def tokenizeAux (src : List Char) : Nat → Nat → List (Except LexerError Token)
  | 0, _ => []
  | fuel + 1, off =>
    match lexNext src off with
    | none => []
    | some (none, _) => []
    | some (some r, off') => r :: tokenizeAux src fuel off'

/-- All tokens of a source text, in order. -/
def tokenize (src : List Char) : List (Except LexerError Token) :=
  tokenizeAux src (src.length + 1) 0

/-- ParseErrorKind from src/error.rs lines 75-83. -/
inductive ParseErrorKind where
  | UnsupportedOperator (op : Operator)
  | UnsupportedKeyword (kw : Keyword)
  | UnexpectedOperator (op : Operator)
  | UnexpectedKeyword (kw : Keyword)
  | UnexpectedToken (ty : TokenType) (lexeme : String)
  | InvalidExpression (lexeme : String)
deriving DecidableEq, Repr

/-- DiagnosticError specialized to runtime errors (src/error.rs lines 38-48):
the full source text, the error kind, and the offending span. -/
structure RuntimeError where
  source : String
  kind : RuntimeErrorKind
  span : Span
deriving DecidableEq, Repr

/-- DiagnosticError specialized to parse errors. -/
structure ParseError where
  source : String
  kind : ParseErrorKind
  span : Span
deriving DecidableEq, Repr

/-- DiagnosticError specialized to lexing errors. -/
structure LexingError where
  source : String
  kind : LexingErrorKind
  span : Span
deriving DecidableEq, Repr

/-- Error from src/error.rs lines 9-21. -/
inductive Error where
  | UnexpectedEndOfInput
  | ParseError (e : ParseError)
  | LexingError (e : LexingError)
  | RuntimeError (e : RuntimeError)
deriving DecidableEq, Repr

mutual
/-- Expr from src/token/tree.rs lines 33-49. -/
inductive Expr where
  | atom (a : Atom)
  | binary (left : Expr) (op : Op) (right : Expr)
  | unary (op : Op) (expr : Expr)
  | group (e : Expr)
  | block (stmts : List Stmt)

/-- Stmt from src/token/tree.rs lines 9-13. The Item payload (struct/function
declarations) is never inspected: evaluating an item statement is
`unimplemented!()` in the source, so the payload is omitted here. -/
inductive Stmt where
  | expr (e : Expr)
  | item
end

/-- Expr::span (src/token/tree.rs lines 51-63); the Block arm is `todo!()`,
modelled as `none`. -/
def Expr.span : Expr → Option Span
  | .atom a => some a.span
  | .binary l _ r =>
    match l.span, r.span with
    | some ls, some rs => some (merge_span ls rs)
    | _, _ => none
  | .unary _ e => e.span
  | .group e => e.span
  | .block _ => none

/-- Wrap a value-level runtime failure into the diagnostic Error, as each
`map_err` closure in Interpreter::visit_binary/visit_unary does. -/
def mapRt (source : String) (sp : Span) : Except RuntimeErrorKind Atom → Except Error Atom
  | .ok a => .ok a
  | .error k => .error (.RuntimeError ⟨source, k, sp⟩)

/-- The ExprVisitor implementation of Interpreter (src/interpreter.rs lines
45-140) composed through `Expr::accept` (src/visitor.rs): atoms are returned
as-is (clone), binary nodes evaluate left then right strictly, unary nodes
evaluate the operand, groups delegate, blocks hit `todo!()` (`none`). The
`source` argument is the lexer's source text, used only inside diagnostics. -/
def evalExpr (source : String) : Expr → Option (Except Error Atom)
  | .atom a => some (.ok a)
  | .binary l op r =>
    match evalExpr source l with
    | none => none
    | some (.error e) => some (.error e)
    | some (.ok lv) =>
      match evalExpr source r with
      | none => none
      | some (.error e) => some (.error e)
      | some (.ok rv) =>
        match l.span, r.span with
        | some ls, some rs =>
          let sp := merge_span ls rs
          match op with
          | .Plus => some (mapRt source sp (lv.add rv))
          | .Minus => some (mapRt source sp (lv.sub rv))
          | .Star => some (mapRt source sp (lv.mul rv))
          | .Slash => some (mapRt source sp (lv.div rv))
          | .EqualEqual => some (.ok ⟨.Bool (lv.beq rv), sp⟩)
          | .BangEqual => some (.ok ⟨.Bool (lv.bne rv), sp⟩)
          | .Less => some (.ok ⟨.Bool (lv.ltb rv), sp⟩)
          | .LessEqual => some (.ok ⟨.Bool (lv.leb rv), sp⟩)
          | .Greater => some (.ok ⟨.Bool (lv.gtb rv), sp⟩)
          | .GreaterEqual => some (.ok ⟨.Bool (lv.geb rv), sp⟩)
          | _ => some (.ok ⟨.Nil, sp⟩)
        | _, _ => none
  | .unary op e =>
    match evalExpr source e with
    | none => none
    | some (.error err) => some (.error err)
    | some (.ok v) =>
      match op with
      | .Minus =>
        match v.neg with
        | .ok a => some (.ok a)
        | .error k =>
          match e.span with
          | some sp => some (.error (.RuntimeError ⟨source, k, sp⟩))
          | none => none
      | .Bang => some (.ok v.not)
      | _ =>
        match e.span with
        | some sp => some (.ok ⟨.Nil, sp⟩)
        | none => none
  | .group e => evalExpr source e
  | .block _ => none

/-- Modelled from the spec: `ParseResult`, the result type of the parser
variant that `Interpreter::interpret` consumes. That parser is absent from
src/ (the `parser.rs` present is an older snapshot whose `parse` returns a
plain `Result`); per the spec (sections 4.2 and 7) it carries the parsed
statement sequence plus optionally accumulated errors, and `interpret`
destructures only the tree (`let ParseResult { tree, .. } = ...`). -/
structure ParseResult where
  tree : List Stmt
  errors : List Error

/-- Evaluation of one statement as `stmt.accept(self)` dispatches it:
expression statements run the expression visitor; item statements hit
`unimplemented!()` (src/interpreter.rs lines 147-149), modelled as `none`. -/
def stmtEval (source : String) : Stmt → Option (Except Error Atom)
  | .expr e => evalExpr source e
  | .item => none

deriving instance DecidableEq for Except

/-- Observable outcome of Interpreter::interpret: the values printed to
standard output (one per successful expression statement), the errors
reported to standard error, and the returned Result. -/
structure InterpOutput where
  stdout : List Atom
  stderr : List Error
  result : Except Error Unit
deriving DecidableEq, Repr

/-- The statement loop of Interpreter::interpret (src/interpreter.rs lines
27-40): each statement is evaluated; for an expression statement an Ok value
is printed to stdout and an Err is reported to stderr, after which the loop
continues with the next statement. `none` models a panic. -/
def interpretLoop (source : String) : List Stmt → Option (List Atom × List Error)
  | [] => some ([], [])
  | s :: rest =>
    match stmtEval source s with
    | none => none
    | some res =>
      match s with
      | .expr _ =>
        match res with
        | .ok a => (interpretLoop source rest).map (fun p => (a :: p.1, p.2))
        | .error e => (interpretLoop source rest).map (fun p => (p.1, e :: p.2))
      | .item => (interpretLoop source rest).map (fun p => p)

/-- Interpreter::interpret (src/interpreter.rs lines 24-42): obtain the parse
result, ignore everything but the tree, run the statement loop, and return
`Ok(())`. -/
def interpret (source : String) (pr : ParseResult) : Option InterpOutput :=
  (interpretLoop source pr.tree).map (fun p => ⟨p.1, p.2, .ok ()⟩)

/-- Discriminant of an AtomKind: two atoms are of the same kind (variant)
exactly when their tags agree. -/
def AtomKind.tag : AtomKind → Nat
  | .String _ => 0
  | .Number _ => 1
  | .Nil => 2
  | .Bool _ => 3
  | .Ident _ => 4
  | .Super => 5
  | .This => 6

/-- Claim C1: for two Number atoms, division returns Err(DivisionByZero)
exactly when the divisor's numeric value is zero and otherwise the Number
quotient; in particular evaluating `10 / 0` produces a DivisionByZero runtime
error and never the value Nil. -/
theorem C1_division_by_zero :
    (∀ (n1 n2 : ℚ) (s1 s2 : Span),
      Atom.div ⟨.Number n1, s1⟩ ⟨.Number n2, s2⟩ =
        if n2 = 0 then .error .DivisionByZero
        else .ok ⟨.Number (n1 / n2), merge_span s1 s2⟩)
    ∧ evalExpr "10 / 0"
        (.binary (.atom ⟨.Number 10, ⟨0, 2⟩⟩) .Slash (.atom ⟨.Number 0, ⟨5, 1⟩⟩))
      = some (.error (.RuntimeError ⟨"10 / 0", .DivisionByZero, ⟨0, 6⟩⟩)) := by
  constructor
  · intro n1 n2 s1 s2
    by_cases h : n2 = 0 <;> simp [Atom.div, h]
  · decide

/-- Claim C4: `+` on two Numbers is the numeric sum, on two Strings the newly
owned concatenation of the contents, and on every other kind pairing the
InvalidOperand error with exactly the message
"Operands must be two numbers or two strings."; the spec's concrete example
concatenates to an owned "Hello World!". -/
theorem C4_addition :
    (∀ (n1 n2 : ℚ) (s1 s2 : Span),
      Atom.add ⟨.Number n1, s1⟩ ⟨.Number n2, s2⟩ =
        .ok ⟨.Number (n1 + n2), merge_span s1 s2⟩)
    ∧ (∀ (c1 c2 : RCow) (s1 s2 : Span),
      Atom.add ⟨.String c1, s1⟩ ⟨.String c2, s2⟩ =
        .ok ⟨.String (.owned (c1.content ++ c2.content)), merge_span s1 s2⟩)
    ∧ (∀ a b : Atom,
      ¬(a.kind.tag = 1 ∧ b.kind.tag = 1) → ¬(a.kind.tag = 0 ∧ b.kind.tag = 0) →
      Atom.add a b = .error (.InvalidOperand "Operands must be two numbers or two strings."))
    ∧ Atom.add ⟨.String (.borrowed "Hello ".toList), ⟨0, 8⟩⟩
        ⟨.String (.borrowed "World!".toList), ⟨11, 8⟩⟩
      = .ok ⟨.String (.owned "Hello World!".toList), ⟨0, 19⟩⟩ := by
  refine ⟨fun n1 n2 s1 s2 => rfl, fun c1 c2 s1 s2 => rfl, ?_, by decide⟩
  rintro ⟨ka, sa⟩ ⟨kb, sb⟩ h1 h2
  cases ka <;> cases kb <;> simp_all [Atom.add, AtomKind.tag]

/-- Witness for C4: a Number-Nil pairing is neither two numbers nor two
strings and yields the InvalidOperand error with the exact message. -/
theorem C4_addition_witness :
    Atom.add ⟨.Number 1, ⟨0, 1⟩⟩ ⟨.Nil, ⟨4, 3⟩⟩
      = .error (.InvalidOperand "Operands must be two numbers or two strings.") :=
  C4_addition.2.2.1 _ _ (by decide) (by decide)

/-- Claim C5: merge_span returns the span from the minimum offset to the
maximum end; it is idempotent, commutative and associative, and a chain of
three merges covers exactly the range from the minimum offset to the maximum
end. -/
theorem C5_merge_span :
    (∀ s1 s2 : Span,
      merge_span s1 s2 =
        ⟨Nat.min s1.offset s2.offset,
         Nat.max s1.endPos s2.endPos - Nat.min s1.offset s2.offset⟩)
    ∧ (∀ s : Span, merge_span s s = s)
    ∧ (∀ s1 s2 : Span, merge_span s1 s2 = merge_span s2 s1)
    ∧ (∀ s1 s2 s3 : Span,
      merge_span (merge_span s1 s2) s3 = merge_span s1 (merge_span s2 s3))
    ∧ (∀ s1 s2 s3 : Span,
      merge_span (merge_span s1 s2) s3 =
        ⟨Nat.min s1.offset (Nat.min s2.offset s3.offset),
         Nat.max s1.endPos (Nat.max s2.endPos s3.endPos) -
           Nat.min s1.offset (Nat.min s2.offset s3.offset)⟩) := by
  refine ⟨fun s1 s2 => rfl, ?_, ?_, ?_, ?_⟩
  · rintro ⟨o, l⟩
    simp only [merge_span, Span.mk.injEq, Nat.min_def, Nat.max_def]
    split_ifs <;> omega
  · rintro ⟨o1, l1⟩ ⟨o2, l2⟩
    simp only [merge_span, Span.mk.injEq, Nat.min_def, Nat.max_def]
    split_ifs <;> omega
  · rintro ⟨o1, l1⟩ ⟨o2, l2⟩ ⟨o3, l3⟩
    simp only [merge_span, Span.mk.injEq, Nat.min_def, Nat.max_def]
    split_ifs <;> omega
  · rintro ⟨o1, l1⟩ ⟨o2, l2⟩ ⟨o3, l3⟩
    simp only [merge_span, Span.endPos, Span.mk.injEq, Nat.min_def, Nat.max_def]
    split_ifs <;> omega

/-- Claim C7: the three binding-power functions return exactly the spec's
table — prefix ((),1) for Print/Return and ((),11) for Bang/Plus/Minus;
postfix (11,()) only for Bang; infix (2,1) for Equal, (5,6) for the six
comparison operators, (7,8) for Plus/Minus, (9,10) for Star/Slash and
(14,13) for Dot — and every other Op has no binding power in that role. -/
theorem C7_binding_powers :
    (∀ op : Op, Op.prefixBindingPower op =
      if op = .Print ∨ op = .Return then some ((), 1)
      else if op = .Bang ∨ op = .Plus ∨ op = .Minus then some ((), 11)
      else none)
    ∧ (∀ op : Op, Op.postfixBindingPower op =
      if op = .Bang then some (11, ()) else none)
    ∧ (∀ op : Op, Op.infixBindingPower op =
      if op = .Equal then some (2, 1)
      else if op = .BangEqual ∨ op = .EqualEqual ∨ op = .Less ∨ op = .LessEqual
          ∨ op = .Greater ∨ op = .GreaterEqual then some (5, 6)
      else if op = .Plus ∨ op = .Minus then some (7, 8)
      else if op = .Star ∨ op = .Slash then some (9, 10)
      else if op = .Dot then some (14, 13)
      else none) := by
  refine ⟨?_, ?_, ?_⟩ <;> exact fun op => by cases op <;> rfl

/-- Claim C8: unary `!` maps Bool(b) to Bool(not b) and every non-Bool kind
to Nil, never a runtime error, and the result keeps the operand's span; the
evaluator's Bang arm wraps this in Ok unconditionally. -/
theorem C8_bang_negation (k : AtomKind) (s : Span) (src : String) :
    (∀ b, Atom.not ⟨.Bool b, s⟩ = ⟨.Bool (!b), s⟩)
    ∧ (k.tag ≠ 3 → Atom.not ⟨k, s⟩ = ⟨.Nil, s⟩)
    ∧ evalExpr src (.unary .Bang (.atom ⟨k, s⟩)) = some (.ok (Atom.not ⟨k, s⟩)) := by
  refine ⟨fun b => rfl, ?_, rfl⟩
  intro h
  cases k <;> simp_all [Atom.not, AtomKind.tag]

/-- Witness for C8: negating the non-Bool atom Number 5 yields Nil with the
operand's span, and evaluation never errs. -/
theorem C8_bang_negation_witness :
    Atom.not ⟨.Number 5, ⟨2, 1⟩⟩ = ⟨.Nil, ⟨2, 1⟩⟩
    ∧ evalExpr "" (.unary .Bang (.atom ⟨.Number 5, ⟨2, 1⟩⟩))
      = some (.ok (Atom.not ⟨.Number 5, ⟨2, 1⟩⟩)) :=
  ⟨(C8_bang_negation (.Number 5) ⟨2, 1⟩ "").2.1 (by decide),
   (C8_bang_negation (.Number 5) ⟨2, 1⟩ "").2.2⟩

/-- On Number atoms, the derived `<` agrees with the numeric strict order. -/
theorem num_ltb (n1 n2 : ℚ) (s1 s2 : Span) :
    Atom.ltb ⟨.Number n1, s1⟩ ⟨.Number n2, s2⟩ = decide (n1 < n2) := by
  simp only [Atom.ltb, Atom.partialCmp, ratCmp]
  split_ifs with h1 h2 <;> simp [h1] <;> rfl

/-- On Number atoms, the derived `>` agrees with the numeric strict order. -/
theorem num_gtb (n1 n2 : ℚ) (s1 s2 : Span) :
    Atom.gtb ⟨.Number n1, s1⟩ ⟨.Number n2, s2⟩ = decide (n2 < n1) := by
  simp only [Atom.gtb, Atom.partialCmp, ratCmp]
  split_ifs with h1 h2
  · simp [lt_asymm h1]
    rfl
  · simp [h2, lt_irrefl]
    rfl
  · simp [lt_of_le_of_ne (not_lt.1 h1) (Ne.symm h2)]
    rfl

/-- On Number atoms, the derived `<=` agrees with the numeric order. -/
theorem num_leb (n1 n2 : ℚ) (s1 s2 : Span) :
    Atom.leb ⟨.Number n1, s1⟩ ⟨.Number n2, s2⟩ = decide (n1 ≤ n2) := by
  simp only [Atom.leb, Atom.partialCmp, ratCmp]
  split_ifs with h1 h2
  · simp [le_of_lt h1]
  · simp [le_of_eq h2]
  · simp [not_le.2 (lt_of_le_of_ne (not_lt.1 h1) (Ne.symm h2))]

/-- On Number atoms, the derived `>=` agrees with the numeric order. -/
theorem num_geb (n1 n2 : ℚ) (s1 s2 : Span) :
    Atom.geb ⟨.Number n1, s1⟩ ⟨.Number n2, s2⟩ = decide (n2 ≤ n1) := by
  simp only [Atom.geb, Atom.partialCmp, ratCmp]
  split_ifs with h1 h2
  · simp [not_le.2 h1]
  · simp [le_of_eq h2.symm]
  · simp [le_of_lt (lt_of_le_of_ne (not_lt.1 h1) (Ne.symm h2))]

/-- Claim C3: atoms of differing kinds (and same-kind pairs without a defined
comparison) compare as == false / != true, every pair without a defined
ordering yields false for all four ordering operators, the evaluator never
produces a runtime error for any equality or ordering operator, and same-kind
pairs compare by content (String), numeric value (Number), Bool and Ident
text. -/
theorem C3_equality_ordering (a b : Atom) (source : String) :
    ((a.kind.tag ≠ b.kind.tag ∨ a.kind = .Super ∨ a.kind = .This) →
      a.beq b = false ∧ a.bne b = true)
    ∧ (¬(a.kind.tag = 1 ∧ b.kind.tag = 1) → ¬(a.kind.tag = 0 ∧ b.kind.tag = 0) →
      a.ltb b = false ∧ a.leb b = false ∧ a.gtb b = false ∧ a.geb b = false)
    ∧ (∀ op ∈ ([.EqualEqual, .BangEqual, .Less, .LessEqual, .Greater,
        .GreaterEqual] : List Op),
      ∃ res : Atom, evalExpr source (.binary (.atom a) op (.atom b)) = some (.ok res))
    ∧ (∀ c1 c2 s1 s2, a = ⟨.String c1, s1⟩ → b = ⟨.String c2, s2⟩ →
      a.beq b = (c1.content == c2.content)
      ∧ a.ltb b = (lexCmp c1.content c2.content == .lt))
    ∧ (∀ n1 n2 s1 s2, a = ⟨.Number n1, s1⟩ → b = ⟨.Number n2, s2⟩ →
      a.beq b = (n1 == n2) ∧ a.ltb b = decide (n1 < n2) ∧ a.leb b = decide (n1 ≤ n2)
      ∧ a.gtb b = decide (n2 < n1) ∧ a.geb b = decide (n2 ≤ n1))
    ∧ (∀ b1 b2 s1 s2, a = ⟨.Bool b1, s1⟩ → b = ⟨.Bool b2, s2⟩ → a.beq b = (b1 == b2))
    ∧ (∀ i1 i2 s1 s2, a = ⟨.Ident i1, s1⟩ → b = ⟨.Ident i2, s2⟩ → a.beq b = (i1 == i2)) := by
  obtain ⟨ka, sa⟩ := a
  obtain ⟨kb, sb⟩ := b
  refine ⟨?_, ?_, ?_, ?_, ?_, ?_, ?_⟩
  · intro h
    cases ka <;> cases kb <;>
      simp_all [Atom.beq, Atom.bne, AtomKind.tag]
  · intro h1 h2
    cases ka <;> cases kb <;>
      simp_all [Atom.ltb, Atom.leb, Atom.gtb, Atom.geb, Atom.partialCmp, AtomKind.tag]
  · intro op hop
    fin_cases hop <;> exact ⟨_, rfl⟩
  · rintro c1 c2 s1 s2 ⟨rfl, rfl⟩ ⟨rfl, rfl⟩
    exact ⟨rfl, rfl⟩
  · rintro n1 n2 s1 s2 ⟨rfl, rfl⟩ ⟨rfl, rfl⟩
    exact ⟨rfl, num_ltb n1 n2 sa sb, num_leb n1 n2 sa sb, num_gtb n1 n2 sa sb,
      num_geb n1 n2 sa sb⟩
  · rintro b1 b2 s1 s2 ⟨rfl, rfl⟩ ⟨rfl, rfl⟩
    rfl
  · rintro i1 i2 s1 s2 ⟨rfl, rfl⟩ ⟨rfl, rfl⟩
    rfl

/-- Witness for C3: the spec's example `5 == "5"` — a Number compared with a
String is false under ==, true under !=, false under all orderings, and the
evaluator returns Ok, not a runtime error. -/
theorem C3_equality_ordering_witness :
    Atom.beq ⟨.Number 5, ⟨0, 1⟩⟩ ⟨.String (.borrowed ['5']), ⟨5, 3⟩⟩ = false
    ∧ Atom.bne ⟨.Number 5, ⟨0, 1⟩⟩ ⟨.String (.borrowed ['5']), ⟨5, 3⟩⟩ = true
    ∧ Atom.ltb ⟨.Number 5, ⟨0, 1⟩⟩ ⟨.String (.borrowed ['5']), ⟨5, 3⟩⟩ = false
    ∧ ∃ res : Atom,
        evalExpr "" (.binary (.atom ⟨.Number 5, ⟨0, 1⟩⟩) .EqualEqual
          (.atom ⟨.String (.borrowed ['5']), ⟨5, 3⟩⟩)) = some (.ok res) :=
  ⟨((C3_equality_ordering _ _ "").1 (by decide)).1,
   ((C3_equality_ordering _ _ "").1 (by decide)).2,
   ((C3_equality_ordering _ _ "").2.1 (by decide) (by decide)).1,
   (C3_equality_ordering _ _ "").2.2.1 .EqualEqual (by decide)⟩

/-- The statement loop characterized: when no statement panics, it yields the
successful values and the reported errors, each in statement order. -/
theorem interpretLoop_spec (source : String) :
    ∀ stmts : List Stmt, (∀ s ∈ stmts, (stmtEval source s).isSome) →
    interpretLoop source stmts =
      some (stmts.filterMap (fun s =>
              match stmtEval source s with
              | some (.ok a) => some a
              | _ => none),
            stmts.filterMap (fun s =>
              match stmtEval source s with
              | some (.error e) => some e
              | _ => none)) := by
  intro stmts
  induction stmts with
  | nil => intro _; rfl
  | cons s rest ih =>
    intro h
    have hs := h s (by simp)
    have hr : ∀ t ∈ rest, (stmtEval source t).isSome := fun t ht => h t (by simp [ht])
    cases s with
    | item => simp [stmtEval] at hs
    | expr e =>
      cases hre : evalExpr source e with
      | none => simp [stmtEval, hre] at hs
      | some res =>
        cases res with
        | ok a => simp [interpretLoop, stmtEval, hre, ih hr]
        | error err => simp [interpretLoop, stmtEval, hre, ih hr]

/-- Counterexample to claim C2: the program `10 / 0; 1;` — the first
statement's runtime error is reported to standard error but interpret's
traversal continues (the second statement's value is still printed) and the
returned Result is Ok(()), not the Err the claim requires. -/
theorem C2_counterexample :
    interpret "10 / 0; 1;"
      ⟨[.expr (.binary (.atom ⟨.Number 10, ⟨0, 2⟩⟩) .Slash (.atom ⟨.Number 0, ⟨5, 1⟩⟩)),
        .expr (.atom ⟨.Number 1, ⟨8, 1⟩⟩)], []⟩
    = some ⟨[⟨.Number 1, ⟨8, 1⟩⟩],
            [.RuntimeError ⟨"10 / 0; 1;", .DivisionByZero, ⟨0, 6⟩⟩],
            .ok ()⟩ := by
  decide

/-- Claim C2 (amended): interpret visits every top-level statement in source
order even across failures — a failing expression statement's error goes to
standard error and the loop continues — and whenever no statement panics the
returned Result is always Ok(()); parse errors in the ParseResult are
discarded. -/
theorem C2_amended (source : String) (pr : ParseResult)
    (h : ∀ s ∈ pr.tree, (stmtEval source s).isSome) :
    interpret source pr =
      some ⟨pr.tree.filterMap (fun s =>
              match stmtEval source s with
              | some (.ok a) => some a
              | _ => none),
            pr.tree.filterMap (fun s =>
              match stmtEval source s with
              | some (.error e) => some e
              | _ => none),
            .ok ()⟩ := by
  unfold interpret
  rw [interpretLoop_spec source pr.tree h]
  rfl

/-- Witness for C2 (amended) at a one-statement program. -/
theorem C2_amended_witness :
    interpret "nil;" ⟨[.expr (.atom ⟨.Nil, ⟨0, 3⟩⟩)], []⟩ =
      some ⟨[⟨.Nil, ⟨0, 3⟩⟩], [], .ok ()⟩ :=
  C2_amended "nil;" ⟨[.expr (.atom ⟨.Nil, ⟨0, 3⟩⟩)], []⟩ (by decide)

/-- A dot-free character list is wholly taken by the not-a-dot predicate. -/
theorem takeWhile_no_dot : ∀ l : List Char, '.' ∉ l →
    l.takeWhile (fun c => !(c == '.')) = l := by
  intro l h
  induction l with
  | nil => rfl
  | cons c t ih =>
    simp only [List.mem_cons, not_or] at h
    have hc : (c == '.') = false := by
      simpa using fun hh => h.1 hh.symm
    simp [List.takeWhile_cons, hc, ih h.2]

/-- A dot-free character list is wholly dropped by the not-a-dot predicate. -/
theorem dropWhile_no_dot : ∀ l : List Char, '.' ∉ l →
    l.dropWhile (fun c => !(c == '.')) = [] := by
  intro l h
  induction l with
  | nil => rfl
  | cons c t ih =>
    simp only [List.mem_cons, not_or] at h
    have hc : (c == '.') = false := by
      simpa using fun hh => h.1 hh.symm
    simp [List.dropWhile_cons, hc, ih h.2]

/-- takeWhile of a dot-free prefix followed by a dot stops at the prefix. -/
theorem takeWhile_app_dot : ∀ (one rest : List Char), '.' ∉ one →
    (one ++ '.' :: rest).takeWhile (fun c => !(c == '.')) = one := by
  intro one rest h
  induction one with
  | nil => simp [List.takeWhile_cons]
  | cons c t ih =>
    simp only [List.mem_cons, not_or] at h
    have hc : (c == '.') = false := by
      simpa using fun hh => h.1 hh.symm
    simp [List.takeWhile_cons, hc, ih h.2]

/-- dropWhile of a dot-free prefix followed by a dot keeps from the dot on. -/
theorem dropWhile_app_dot : ∀ (one rest : List Char), '.' ∉ one →
    (one ++ '.' :: rest).dropWhile (fun c => !(c == '.')) = '.' :: rest := by
  intro one rest h
  induction one with
  | nil => simp [List.dropWhile_cons]
  | cons c t ih =>
    simp only [List.mem_cons, not_or] at h
    have hc : (c == '.') = false := by
      simpa using fun hh => h.1 hh.symm
    simp [List.dropWhile_cons, hc, ih h.2]

/-- Counterexample to claim C6: the input `1..` — the digit run ends in a
trailing dot that is not followed by a digit, yet the lexer consumes it: the
first token has lexeme "1." (classified Number 1.0), scanning resumes after
that dot, and only one Dot token follows, whereas the claim's rule predicts
lexeme "1" followed by two Dot tokens. -/
theorem C6_counterexample :
    tokenize "1..".toList =
      [.ok ⟨.Literal (.Number 1), ['1', '.']⟩,
       .ok ⟨.Operator (.Unary .Dot), ['.']⟩] := by
  decide

/-- Claim C6 (amended): the digit branch consumes a dot-free run whole; a run
with exactly one dot is consumed whole when digits follow the dot and up to
(not including) the trailing dot otherwise; a run with two or more dots is
consumed through its second dot-free segment — so a trailing dot directly
followed by another dot IS consumed into the number lexeme; the spec's
example input still lexes to exactly the stated token sequence. -/
theorem C6_amended :
    (∀ one : List Char, '.' ∉ one → digitConsumeLen one = one.length)
    ∧ (∀ one : List Char, '.' ∉ one → digitConsumeLen (one ++ ['.']) = one.length)
    ∧ (∀ one two : List Char, '.' ∉ one → '.' ∉ two → two ≠ [] →
        digitConsumeLen (one ++ '.' :: two) = (one ++ '.' :: two).length)
    ∧ (∀ one two rest : List Char, '.' ∉ one → '.' ∉ two →
        digitConsumeLen (one ++ '.' :: two ++ '.' :: rest)
          = one.length + two.length + 1)
    ∧ tokenize "123 123.456 .456 123.".toList =
        [.ok ⟨.Literal (.Number 123), "123".toList⟩,
         .ok ⟨.Literal (.Number (mkRat 123456 1000)), "123.456".toList⟩,
         .ok ⟨.Operator (.Unary .Dot), ['.']⟩,
         .ok ⟨.Literal (.Number 456), "456".toList⟩,
         .ok ⟨.Literal (.Number 123), "123".toList⟩,
         .ok ⟨.Operator (.Unary .Dot), ['.']⟩] := by
  refine ⟨?_, ?_, ?_, ?_, by decide⟩
  · intro one h
    simp [digitConsumeLen, takeWhile_no_dot one h, dropWhile_no_dot one h]
  · intro one h
    simp [digitConsumeLen, takeWhile_app_dot one [] h, dropWhile_app_dot one [] h]
  · intro one two h1 h2 hne
    simp [digitConsumeLen, takeWhile_app_dot one two h1, dropWhile_app_dot one two h1,
      takeWhile_no_dot two h2, dropWhile_no_dot two h2, hne]
  · intro one two rest h1 h2
    simp [digitConsumeLen, takeWhile_app_dot one (two ++ '.' :: rest) h1,
      dropWhile_app_dot one (two ++ '.' :: rest) h1,
      takeWhile_app_dot two rest h2, dropWhile_app_dot two rest h2]

/-- Witness for C6 (amended) at the runs "1", "1.", "1.2" and "1..2". -/
theorem C6_amended_witness :
    digitConsumeLen ['1'] = 1
    ∧ digitConsumeLen ['1', '.'] = 1
    ∧ digitConsumeLen ['1', '.', '2'] = 3
    ∧ digitConsumeLen ['1', '.', '.', '2'] = 2 :=
  ⟨C6_amended.1 ['1'] (by decide),
   C6_amended.2.1 ['1'] (by decide),
   C6_amended.2.2.1 ['1'] ['2'] (by decide) (by decide) (by decide),
   C6_amended.2.2.2.1 ['1'] [] ['2'] (by decide) (by decide)⟩

/-- Splitting never yields an empty segment list. -/
theorem linesSplit_ne_nil : ∀ s : List Char, linesSplit s ≠ [] := by
  intro s
  induction s with
  | nil => simp [linesSplit]
  | cons c t ih =>
    simp only [linesSplit]
    split_ifs
    · simp
    · cases h : linesSplit t with
      | nil => exact absurd h ih
      | cons seg segs => simp [h]

/-- Splitting on newline yields one more segment than there are newlines. -/
theorem linesSplit_length : ∀ s : List Char,
    (linesSplit s).length = s.count '\n' + 1 := by
  intro s
  induction s with
  | nil => rfl
  | cons c t ih =>
    simp only [linesSplit]
    split_ifs with hc
    · subst hc
      simp [List.count_cons, ih]
    · cases h : linesSplit t with
      | nil => exact absurd h (linesSplit_ne_nil t)
      | cons seg segs =>
        rw [h] at ih
        simp only [List.length_cons] at ih ⊢
        rw [List.count_cons]
        simp [hc, Ne.symm hc, ih]

/-- Counterexample to claim C9: at byte offset 0 (a cursor on the first line)
`line()` reports 0, not 1, and at the offset immediately after the newline of
"a\nb" it reports 1 — the number of the just-ended line — not 2; only one
byte further, strictly inside line 2, does it report 2. -/
theorem C9_counterexample :
    Lexer.line ⟨"abc".toList, 0⟩ = 0
    ∧ Lexer.line ⟨"a\nb".toList, 2⟩ = 1
    ∧ Lexer.line ⟨"a\nb".toList, 3⟩ = 2 := by
  decide

/-- Claim C9 (amended): `line()` returns the line count of the consumed
prefix under Rust's `str::lines` semantics — 0 for an empty prefix, and
otherwise the number of newlines in the prefix plus one unless the prefix
ends with a newline; this equals the 1-based line number only for a cursor
strictly inside a line. -/
theorem C9_amended (src : List Char) (off : Nat) :
    Lexer.line ⟨src, off⟩ =
      if src.take off = [] then 0
      else (src.take off).count '\n'
        + (if (src.take off).getLast? = some '\n' then 0 else 1) := by
  unfold Lexer.line rustLines
  dsimp only
  split_ifs with h1 h2
  · simp
  · rw [List.length_dropLast, linesSplit_length]
    omega
  · rw [linesSplit_length]

/-- Counterexample to claim C10: the all-digits-and-dots lexeme "1.2.3" is
not valid f64 syntax, so Literal::try_from's unwrap panics (modelled as
`none`) and TokenType::from is not total. -/
theorem C10_counterexample :
    Literal.tryFrom? "1.2.3".toList = none
    ∧ TokenType.from? "1.2.3".toList = none := by
  decide

/-- Claim C10 (amended): for a lexeme of ASCII digits and dots,
Literal::try_from parses it as an f64 Number exactly when it has at most one
dot and at least one digit; with two or more dots (or no digit at all), the
f64 parse fails and the unwrap panics, so TokenType::from is not total. -/
theorem C10_amended (s : List Char)
    (hall : s.all (fun c => c.isDigit || c == '.') = true) :
    (s.count '.' ≤ 1 ∧ 1 ≤ (s.filter Char.isDigit).length →
      ∃ q, Literal.tryFrom? s = some (.ok (.Number q)))
    ∧ (¬(s.count '.' ≤ 1 ∧ 1 ≤ (s.filter Char.isDigit).length) →
      Literal.tryFrom? s = none) := by
  have hq : ¬(s.head? = some '"') := by
    cases s with
    | nil => simp
    | cons c t =>
      simp only [List.all_cons, Bool.and_eq_true] at hall
      intro hc
      simp only [List.head?_cons, Option.some.injEq] at hc
      subst hc
      exact absurd hall.1 (by decide)
  unfold Literal.tryFrom? parseF64?
  rw [if_neg hq, if_pos hall]
  constructor
  · rintro ⟨h1, h2⟩
    rw [if_pos ⟨h1, h2, hall⟩]
    exact ⟨_, rfl⟩
  · intro h
    rw [if_neg (fun hcond => h ⟨hcond.1, hcond.2.1⟩)]

/-- Witness for C10 (amended): "12.5" has one dot and digits, so it parses as
a Number. -/
theorem C10_amended_witness :
    ∃ q, Literal.tryFrom? "12.5".toList = some (.ok (.Number q)) :=
  (C10_amended "12.5".toList (by decide)).1 (by decide)
